import Mathlib

/-!
Shallow embedding of the level100-studios component library (JavaScript/React)
for verification of its behavioural specification.

Each definition mirrors one function or handler of the source.  React local
state (`useState`) is embedded as explicit state records; event handlers become
state-transition functions; calls to optional callback props are recorded as
emitted call lists; `createContext` defaults and `useContext` lookups are
embedded through an explicit JavaScript-value model that distinguishes the
falsy values `null`/`undefined` from (always truthy) objects.
-/

set_option maxHeartbeats 1000000

/-! ## JavaScript context values

`React.createContext(d)` stores a default `d`; `useContext(C)` returns the
nearest provider value, or the default when no provider encloses the caller.
In the library the context value is either `null` (falsy) or an object
(always truthy), so truthiness of a context value is decided by this shape. -/

/-- A JavaScript context value: `null`/`undefined`, or an object carrying
payload `α`.  Objects are always truthy in JavaScript; `null` and `undefined`
are falsy. -/
inductive JsCtx (α : Type) where
  | jsNull : JsCtx α
  | jsObj : α → JsCtx α
deriving DecidableEq, Repr

/-- JavaScript truthiness for a context value: `null`/`undefined` are falsy,
every object is truthy. -/
def JsCtx.truthy {α : Type} : JsCtx α → Bool
  | .jsNull => false
  | .jsObj _ => true

/-- `useContext`: the provider's value when a provider encloses the caller
(`provided = some v`), otherwise the `createContext` default. -/
def useContextJs {α : Type} (defaultVal : JsCtx α) (provided : Option (JsCtx α)) :
    JsCtx α :=
  provided.getD defaultVal

/-! ## Radio (src/unnamed/part_000)

`const RadioContext = createContext({});` — the default context value is the
empty object `{}`.  `RadioGroup` provides `{ name, selectedValue, onChange,
disabled, required }`; a bare `Radio` receives the default `{}`, whose field
reads all yield `undefined`. -/

/-- The value carried by `RadioContext`: the fields `RadioGroup` provides.
Each field is `Option`-valued because reading a missing field of the default
`{}` yields `undefined` (`none`). -/
structure RadioCtx where
  name : Option String
  selectedValue : Option String
  onChangePresent : Bool
  groupDisabled : Option Bool
  required : Option Bool
deriving DecidableEq, Repr

/-- `createContext({})`: the default value of `RadioContext` is the empty
object — an object, hence truthy; all of its field reads give `undefined`. -/
def RadioContext_default : JsCtx RadioCtx :=
  .jsObj { name := none, selectedValue := none, onChangePresent := false,
           groupDisabled := none, required := none }

/-- JavaScript template-literal stringification of a possibly-undefined
string: `undefined` prints as `"undefined"`. -/
def jsTemplateStr : Option String → String
  | none => "undefined"
  | some s => s

/-- The markup-relevant outputs of one `Radio` render: the input `id`
attribute and the derived selected/disabled flags. -/
structure RadioMarkup where
  id : String
  isSelected : Bool
  isDisabled : Bool
deriving DecidableEq, Repr

/-- The `Radio` component body.  `provided` is the enclosing `RadioGroup`'s
context value when one exists.  The source guard `if (!context) throw ...`
fires exactly when the context value is falsy (`null`/`undefined`); then
`isSelected = (selectedValue === value)`, `isDisabled = disabled || groupDisabled`
(with `undefined` falsy), and `id` is the template literal `name-value`. -/
def Radio (provided : Option (JsCtx RadioCtx)) (value : String) (disabled : Bool) :
    Except String RadioMarkup :=
  match useContextJs RadioContext_default provided with
  | .jsNull => .error "Radio must be used within a RadioGroup"
  | .jsObj c =>
      .ok { id := jsTemplateStr c.name ++ "-" ++ value
            isSelected := c.selectedValue == some value
            isDisabled := disabled || c.groupDisabled.getD false }

/-! ## Toast and theme context hooks
(src/components/Toast/useToast.js, src/components/ThemeProvider/ThemeProvider.jsx)

Both contexts are created with `createContext(null)`, so the guard
`if (!context) throw ...` fires exactly when no provider is present. -/

/-- `useToastContext`: reads `ToastContext` (default `null`) and throws when
the value is falsy, otherwise returns it. -/
def useToastContext {α : Type} (provided : Option (JsCtx α)) : Except String α :=
  match useContextJs .jsNull provided with
  | .jsNull => .error "useToastContext must be used within a ToastProvider"
  | .jsObj v => .ok v

/-- `useTheme`: reads `ThemeContext` (default `null`) and throws when the
value is falsy, otherwise returns it. -/
def useTheme {α : Type} (provided : Option (JsCtx α)) : Except String α :=
  match useContextJs .jsNull provided with
  | .jsNull => .error "useTheme must be used within a ThemeProvider"
  | .jsObj v => .ok v

/-- C1: the claim says a `Radio` rendered with no enclosing `RadioGroup`
throws `'Radio must be used within a RadioGroup'`.  The code's guard is dead:
`createContext({})` makes the no-provider context value the truthy object
`{}`, so the render succeeds, producing markup with `name` stringified as
`"undefined"`.  This theorem evaluates the component at the failing input. -/
theorem C1_radio_without_group_renders :
    Radio none "sm" false =
      .ok { id := "undefined-sm", isSelected := false, isDisabled := false } := by
  rfl

/-- C7: `useToastContext` with no enclosing `ToastProvider` throws
`'useToastContext must be used within a ToastProvider'`, and `useTheme` with
no enclosing `ThemeProvider` throws `'useTheme must be used within a
ThemeProvider'`; with a provider present each hook returns the provider's
value without throwing. -/
theorem C7_context_hooks_throw_outside_provider :
    ∀ (α : Type) (v : α),
      useToastContext (α := α) none =
        .error "useToastContext must be used within a ToastProvider" ∧
      useToastContext (some (.jsObj v)) = .ok v ∧
      useTheme (α := α) none =
        .error "useTheme must be used within a ThemeProvider" ∧
      useTheme (some (.jsObj v)) = .ok v := by
  intro α v
  exact ⟨rfl, rfl, rfl, rfl⟩

/-! ## Menu (src/components/Menu/Menu.jsx)

Local state is the single boolean `isOpen`.  The trigger's click handler is
`() => setIsOpen(!isOpen)`.  A document `keydown` listener is attached only
while `isOpen`; its handler sets `isOpen` to `false` when `event.key ===
'Escape'`. -/

namespace Menu

/-- `Menu.Trigger` click: `setIsOpen(!isOpen)`. -/
def triggerClick (isOpen : Bool) : Bool :=
  !isOpen

/-- The `isOpen` state after a document keydown with the given key: the
escape listener exists only while the menu is open, and closes it when the
key is `Escape`. -/
def escapeKeydown (key : String) (isOpen : Bool) : Bool :=
  if isOpen then
    if key == "Escape" then false else isOpen
  else isOpen

/-- `Menu.Item`'s click handler: `onClick` runs (and then `onClose?.()`)
only when the item is not disabled and `onClick` is present.  Returns
(whether `onClick` was invoked, whether `onClose` was invoked);
`Menu.Item` itself holds no local state. -/
def itemHandleClick (disabled onClickPresent onClosePresent : Bool) :
    Bool × Bool :=
  if !disabled && onClickPresent then (true, onClosePresent) else (false, false)

end Menu

/-! ## Select (src/components/Select/Select.jsx)

Local state: `isOpen`, `searchTerm`, `highlightedIndex` (a JavaScript number
that ranges over `-1, 0, 1, ...`, embedded as `Int`).  Optional callbacks
`onChange` / `onSearch` are embedded as presence flags, and their invocations
are returned as emitted call lists. -/

/-- One entry of the `options` prop: `{ value, label, disabled? }`. -/
structure SelectOption where
  value : String
  label : String
  disabled : Bool
deriving DecidableEq, Repr

/-- The `Select` component's local state. -/
structure SelectState where
  isOpen : Bool
  searchTerm : String
  highlightedIndex : Int
deriving DecidableEq, Repr

namespace Select

/-- JavaScript `hay.includes(needle)` on strings: some contiguous slice of
`hay` equals `needle`. -/
def strIncludes (hay needle : String) : Bool :=
  (List.range (hay.length + 1)).any fun i =>
    ((hay.toList.drop i).take needle.length) == needle.toList

/-- `filteredOptions`: when `searchable` and the search term is nonempty,
keep the options whose lowercased label contains the lowercased term. -/
def filteredOptions (searchable : Bool) (searchTerm : String)
    (options : List SelectOption) : List SelectOption :=
  if searchable && searchTerm != "" then
    options.filter fun opt => strIncludes opt.label.toLower searchTerm.toLower
  else options

/-- `handleClickOutside`: on a document mousedown, when the container node
exists and does not contain the event target, close the dropdown and clear
the search term; otherwise do nothing. -/
def handleClickOutside (containerPresent targetInside : Bool)
    (s : SelectState) : SelectState :=
  if containerPresent && !targetInside then
    { s with isOpen := false, searchTerm := "" }
  else s

/-- `handleToggle`: when not disabled, flip `isOpen`, clear the search term
and reset the highlighted index to `-1`. -/
def handleToggle (disabled : Bool) (s : SelectState) : SelectState :=
  if !disabled then
    { isOpen := !s.isOpen, searchTerm := "", highlightedIndex := -1 }
  else s

/-- `handleSelect(optionValue)`: invoke `onChange?.(optionValue)`, close the
dropdown and clear the search term.  Second component: the `onChange` calls
emitted. -/
def handleSelect (onChangePresent : Bool) (optionValue : String)
    (s : SelectState) : SelectState × List String :=
  ({ s with isOpen := false, searchTerm := "" },
   if onChangePresent then [optionValue] else [])

/-- `handleClear`: invoke `onChange?.('')` and clear the search term (the
open flag and highlight are untouched). -/
def handleClear (onChangePresent : Bool) (s : SelectState) :
    SelectState × List String :=
  ({ s with searchTerm := "" }, if onChangePresent then [""] else [])

/-- `handleSearchChange`: store the new term, invoke `onSearch?.(term)` and
reset the highlighted index.  Second component: the `onSearch` calls
emitted. -/
def handleSearchChange (onSearchPresent : Bool) (term : String)
    (s : SelectState) : SelectState × List String :=
  ({ s with searchTerm := term, highlightedIndex := -1 },
   if onSearchPresent then [term] else [])

/-- `filteredOptions[highlightedIndex]` as JavaScript indexing: `undefined`
(`none`) for a negative or out-of-range index. -/
def jsIndex (l : List SelectOption) (i : Int) : Option SelectOption :=
  if i < 0 then none else l.get? i.toNat

/-- `handleKeyDown`: the keyboard handler of the combobox.  Closed state only
reacts to `Enter`, space and `ArrowDown` (opening); open state moves the
highlight with the arrows, selects with `Enter`, and closes clearing the
search term with `Escape` or `Tab`.  Second component: `onChange` calls
emitted through `handleSelect`. -/
def handleKeyDown (onChangePresent : Bool) (key : String)
    (options : List SelectOption) (searchable : Bool) (s : SelectState) :
    SelectState × List String :=
  if !s.isOpen then
    if key == "Enter" || key == " " || key == "ArrowDown" then
      ({ s with isOpen := true }, [])
    else (s, [])
  else
    let fo := filteredOptions searchable s.searchTerm options
    if key == "ArrowDown" then
      ({ s with highlightedIndex :=
          if s.highlightedIndex < (fo.length : Int) - 1 then
            s.highlightedIndex + 1
          else s.highlightedIndex }, [])
    else if key == "ArrowUp" then
      ({ s with highlightedIndex :=
          if s.highlightedIndex > 0 then s.highlightedIndex - 1 else -1 }, [])
    else if key == "Enter" then
      if 0 ≤ s.highlightedIndex then
        match jsIndex fo s.highlightedIndex with
        | some opt => handleSelect onChangePresent opt.value s
        | none => (s, [])
      else (s, [])
    else if key == "Escape" then
      ({ s with isOpen := false, searchTerm := "" }, [])
    else if key == "Tab" then
      ({ s with isOpen := false, searchTerm := "" }, [])
    else (s, [])

end Select

/-- C4: a `Menu.Trigger` click maps the open flag `b` to `!b`; a trigger
click on a non-disabled `Select` maps its open flag `b` to `!b` and resets
the search term to `""` and the highlighted index to `-1`; hence two
consecutive trigger clicks restore the original open state in both
components. -/
theorem C4_trigger_click_toggles_open :
    ∀ (b : Bool) (s : SelectState),
      Menu.triggerClick b = !b ∧
      Menu.triggerClick (Menu.triggerClick b) = b ∧
      Select.handleToggle false s =
        { isOpen := !s.isOpen, searchTerm := "", highlightedIndex := -1 } ∧
      (Select.handleToggle false (Select.handleToggle false s)).isOpen =
        s.isOpen := by
  intro b s
  refine ⟨by simp [Menu.triggerClick], by simp [Menu.triggerClick], rfl, ?_⟩
  simp [Select.handleToggle]

/-- C5: pressing Escape closes an open menu: an open `Menu` transitions to
closed on an Escape keydown; an open `Select`'s Escape branch closes the
dropdown and clears the search term (emitting no `onChange` call); and an
Escape keydown never transitions either component from closed to open. -/
theorem C5_escape_closes_open_menu :
    ∀ (s : SelectState) (opts : List SelectOption)
      (searchable onChangePresent : Bool),
      Menu.escapeKeydown "Escape" true = false ∧
      Menu.escapeKeydown "Escape" false = false ∧
      (s.isOpen = true →
        Select.handleKeyDown onChangePresent "Escape" opts searchable s =
          ({ s with isOpen := false, searchTerm := "" }, [])) ∧
      (s.isOpen = false →
        Select.handleKeyDown onChangePresent "Escape" opts searchable s =
          (s, [])) := by
  intro s opts searchable onChangePresent
  refine ⟨rfl, rfl, fun h => ?_, fun h => ?_⟩
  · simp [Select.handleKeyDown, h]
  · simp [Select.handleKeyDown, h]

/-- Witness for C5 at a concrete open state. -/
theorem C5_escape_closes_open_menu_witness :
    Select.handleKeyDown false "Escape" [] false
        { isOpen := true, searchTerm := "ab", highlightedIndex := 0 } =
      ({ isOpen := false, searchTerm := "", highlightedIndex := 0 }, []) :=
  (C5_escape_closes_open_menu
      { isOpen := true, searchTerm := "ab", highlightedIndex := 0 }
      [] false false).2.2.1 rfl

/-- C6: outside-click dismissal of `Select`: a mousedown whose target is not
contained in the container closes the dropdown and resets the search term to
`""`, and a mousedown inside the container leaves the state (in particular
the open flag) unchanged. -/
theorem C6_select_outside_click_dismisses :
    ∀ (s : SelectState),
      (s.isOpen = true →
        Select.handleClickOutside true false s =
          { s with isOpen := false, searchTerm := "" }) ∧
      Select.handleClickOutside true true s = s := by
  intro s
  exact ⟨fun _ => rfl, rfl⟩

/-- Witness for C6 at a concrete open state. -/
theorem C6_select_outside_click_dismisses_witness :
    Select.handleClickOutside true false
        { isOpen := true, searchTerm := "q", highlightedIndex := 2 } =
      { isOpen := false, searchTerm := "", highlightedIndex := 2 } :=
  (C6_select_outside_click_dismisses
      { isOpen := true, searchTerm := "q", highlightedIndex := 2 }).1 rfl

/-! ## Toast component (src/unnamed/part_006)

Local state: `isExiting`, `progress`, `isPaused`.  The timer effect returns
immediately when `duration <= 0 || isPaused`; otherwise it starts an interval
firing every 50 ms that recomputes the progress from `Date.now()` and, once
`now >= endTime = startTime + duration`, clears the interval and calls
`handleDismiss`, which marks the toast exiting and calls `onDismiss?.(id)`
after the 300 ms exit animation.  JavaScript number arithmetic on these
millisecond quantities is embedded exactly over `Int`/`ℚ`. -/

/-- The `Toast` component's local state. -/
structure ToastState where
  isExiting : Bool
  progress : ℚ
  isPaused : Bool
deriving DecidableEq, Repr

namespace Toast

/-- The guard of the timer effect: the body runs (the interval is started)
only when `duration <= 0 || isPaused` is false. -/
def timerArmed (duration : Int) (isPaused : Bool) : Bool :=
  !(decide (duration ≤ 0) || isPaused)

/-- `handleDismiss`: set `isExiting` and, 300 ms later, call
`onDismiss?.(id)`.  Second component: the `onDismiss` calls emitted. -/
def handleDismiss (onDismissPresent : Bool) (id : String) (s : ToastState) :
    ToastState × List String :=
  ({ s with isExiting := true }, if onDismissPresent then [id] else [])

/-- One firing of the interval callback at absolute time `now`:
recompute `remaining` and the progress percentage, and once `now >= endTime`
clear the interval and dismiss. -/
def intervalTick (onDismissPresent : Bool) (id : String)
    (duration startTime now : Int) (s : ToastState) : ToastState × List String :=
  let endTime := startTime + duration
  let remaining : Int := max 0 (endTime - now)
  let s' : ToastState := { s with progress := (remaining : ℚ) / (duration : ℚ) * 100 }
  if endTime ≤ now then handleDismiss onDismissPresent id s'
  else (s', [])

/-- `handleMouseEnter`: pause the timer and call `onPause?.(id)`. -/
def handleMouseEnter (onPausePresent : Bool) (id : String) (s : ToastState) :
    ToastState × List String :=
  ({ s with isPaused := true }, if onPausePresent then [id] else [])

/-- `handleMouseLeave`: resume the timer and call `onResume?.(id)`. -/
def handleMouseLeave (onResumePresent : Bool) (id : String) (s : ToastState) :
    ToastState × List String :=
  ({ s with isPaused := false }, if onResumePresent then [id] else [])

end Toast

/-- C2: a toast with `duration > 0` that is never hovered has its timer
armed, every interval firing before `startTime + duration` dismisses nothing,
and the firing at any time `now ≥ startTime + duration` invokes the
`onDismiss` callback with the toast's own id; while the pointer hovers the
toast (`isPaused = true`) the effect guard fails, so the auto-dismiss timer
does not run at all. -/
theorem C2_toast_auto_dismiss_unless_hovered :
    ∀ (duration startTime : Int) (id : String) (s : ToastState),
      0 < duration →
      Toast.timerArmed duration false = true ∧
      (∀ now : Int, startTime + duration ≤ now →
        (Toast.intervalTick true id duration startTime now s).2 = [id] ∧
        (Toast.intervalTick true id duration startTime now s).1.isExiting = true) ∧
      (∀ now : Int, now < startTime + duration →
        (Toast.intervalTick true id duration startTime now s).2 = [] ∧
        (Toast.intervalTick true id duration startTime now s).1.isExiting =
          s.isExiting) ∧
      Toast.timerArmed duration true = false := by
  intro duration startTime id s hdur
  refine ⟨?_, fun now hnow => ?_, fun now hnow => ?_, ?_⟩
  · simp [Toast.timerArmed]
    omega
  · constructor <;>
      simp [Toast.intervalTick, Toast.handleDismiss, hnow]
  · have hc : ¬ (startTime + duration ≤ now) := by omega
    constructor <;>
      simp [Toast.intervalTick, Toast.handleDismiss, hc]
  · simp [Toast.timerArmed]

/-- Witness for C2: a 100 ms toast, never hovered, is dismissed by the tick
at 150 ms. -/
theorem C2_toast_auto_dismiss_unless_hovered_witness :
    (Toast.intervalTick true "toast_1" 100 0 150
        { isExiting := false, progress := 100, isPaused := false }).2 =
      ["toast_1"] :=
  ((C2_toast_auto_dismiss_unless_hovered 100 0 "toast_1"
      { isExiting := false, progress := 100, isPaused := false }
      (by decide)).2.1 150 (by decide)).1

/-! ## Slider (src/components/Checkbox/Checkbox.jsx, combined source file)

Only the keyboard handler is needed here: it computes a new value from the
pressed key (returning early on any other key or when disabled), stores it
with `setInternalValue`, and invokes the optional `onChange?.(newValue)`. -/

namespace Slider

/-- The `switch` of `handleKeyDown`: the new value for a recognised key,
`none` for the `default:` early return. -/
def keyNewValue (key : String) (minv maxv step internalValue : Int) :
    Option Int :=
  if key == "ArrowLeft" || key == "ArrowDown" then
    some (max minv (internalValue - step))
  else if key == "ArrowRight" || key == "ArrowUp" then
    some (min maxv (internalValue + step))
  else if key == "Home" then some minv
  else if key == "End" then some maxv
  else none

/-- `handleKeyDown`: disabled sliders and unrecognised keys change nothing;
otherwise the new value is stored and `onChange?.(newValue)` emitted.
First component: the `internalValue` state after the handler. -/
def handleKeyDown (onChangePresent : Bool) (key : String)
    (minv maxv step internalValue : Int) (disabled : Bool) :
    Int × List Int :=
  if disabled then (internalValue, [])
  else
    match keyNewValue key minv maxv step internalValue with
    | none => (internalValue, [])
    | some nv => (nv, if onChangePresent then [nv] else [])

end Slider

/-- C3: optional callback props are no-ops when absent.  Every embedded
handler is a total function — invoking it with the callback absent cannot
throw — and its local-state component is identical whether the optional
callback (`onChange`/`onSearch` for `Select`, `onDismiss`/`onPause`/`onResume`
for `Toast`, `onClick`/`onClose` for `Menu.Item`, `onChange` for `Slider`)
is absent or supplied; for `Menu.Item`, which holds no local state, an absent
`onClick` leaves the click a no-op and an absent `onClose` does not change
whether `onClick` runs. -/
theorem C3_absent_callbacks_are_noops :
    ∀ (v term id key : String) (s : SelectState) (ts : ToastState)
      (opts : List SelectOption) (searchable : Bool)
      (minv maxv step iv : Int) (d c : Bool),
      (Select.handleSelect false v s).1 = (Select.handleSelect true v s).1 ∧
      (Select.handleClear false s).1 = (Select.handleClear true s).1 ∧
      (Select.handleSearchChange false term s).1 =
        (Select.handleSearchChange true term s).1 ∧
      (Select.handleKeyDown false key opts searchable s).1 =
        (Select.handleKeyDown true key opts searchable s).1 ∧
      (Toast.handleDismiss false id ts).1 = (Toast.handleDismiss true id ts).1 ∧
      (Toast.handleMouseEnter false id ts).1 =
        (Toast.handleMouseEnter true id ts).1 ∧
      (Toast.handleMouseLeave false id ts).1 =
        (Toast.handleMouseLeave true id ts).1 ∧
      Menu.itemHandleClick d false c = (false, false) ∧
      (Menu.itemHandleClick d c false).1 = (Menu.itemHandleClick d c true).1 ∧
      (Slider.handleKeyDown false key minv maxv step iv d).1 =
        (Slider.handleKeyDown true key minv maxv step iv d).1 := by
  intro v term id key s ts opts searchable minv maxv step iv d c
  refine ⟨rfl, rfl, rfl, ?_, rfl, rfl, rfl, ?_, ?_, ?_⟩
  · unfold Select.handleKeyDown
    split
    · rfl
    · dsimp only
      split
      · rfl
      · split
        · rfl
        · split
          · split
            · cases Select.jsIndex
                (Select.filteredOptions searchable s.searchTerm opts)
                s.highlightedIndex <;> rfl
            · rfl
          · rfl
  · cases d <;> cases c <;> rfl
  · cases d <;> cases c <;> rfl
  · unfold Slider.handleKeyDown
    split
    · rfl
    · cases Slider.keyNewValue key minv maxv step iv <;> rfl

/-! ## Accordion (src/unnamed/part_001)

`openItems` is a `Set` of item ids; `toggleItem` copies it and, in `'single'`
mode, deletes an already-open id or clears the copy and adds the new id;
in `'multiple'` mode it toggles the id alone.  A JavaScript `Set` of strings
is embedded as `Finset String`. -/

namespace Accordion

/-- `toggleItem(itemId)` of the `Accordion` component, parameterised by the
`type` prop and the current `openItems` set. -/
def toggleItem (accordionType : String) (openItems : Finset String)
    (itemId : String) : Finset String :=
  if accordionType == "single" then
    if itemId ∈ openItems then openItems.erase itemId
    else {itemId}
  else
    if itemId ∈ openItems then openItems.erase itemId
    else insert itemId openItems

end Accordion

/-- C8 counterexample: the claim quantifies over every state of the open-item
set, but the state `{"a","b","c"}` (reachable via `defaultOpen={['a','b','c']}`
with `type='single'`) still has two open items after `toggleItem('a')`,
because the single-mode close branch only deletes the toggled id. -/
theorem C8_counterexample_multi_open_state :
    ¬ (Accordion.toggleItem "single" {"a", "b", "c"} "a").card ≤ 1 := by
  decide

/-- C8 amended: in single mode, from any state with at most one open item,
`toggleItem` leaves at most one item open; toggling a currently open item
removes exactly that item, and toggling a closed item makes it the unique
open item. -/
theorem C8_single_mode_invariant :
    ∀ (s : Finset String) (i : String),
      (s.card ≤ 1 → (Accordion.toggleItem "single" s i).card ≤ 1) ∧
      (i ∈ s → Accordion.toggleItem "single" s i = s.erase i) ∧
      (i ∉ s → Accordion.toggleItem "single" s i = {i}) := by
  intro s i
  refine ⟨fun h => ?_, fun hm => ?_, fun hm => ?_⟩
  · by_cases hm : i ∈ s
    · have he : Accordion.toggleItem "single" s i = s.erase i := by
        simp [Accordion.toggleItem, hm]
      rw [he]
      exact le_trans (Finset.card_erase_le) h
    · have he : Accordion.toggleItem "single" s i = {i} := by
        simp [Accordion.toggleItem, hm]
      rw [he, Finset.card_singleton]
  · simp [Accordion.toggleItem, hm]
  · simp [Accordion.toggleItem, hm]

/-- Witness for C8's amended statement: toggling the closed item `"b"` on the
singleton state `{"a"}` yields the unique open item `{"b"}`. -/
theorem C8_single_mode_invariant_witness :
    Accordion.toggleItem "single" ({"a"} : Finset String) "b" = {"b"} :=
  (C8_single_mode_invariant {"a"} "b").2.2 (by decide)

/-! ## Toast queue (src/components/Toast/useToast.js)

`showToast` builds `{...defaultConfig, ...toast, id, createdAt}` — default
`duration: 5000` and `dismissible: true` overridden by the caller's fields,
with the generated `id` and `createdAt` set last — and prepends it:
`setToasts(prev => [newToast, ...prev])`, returning the id.  `dismissToast`
filters: `prev.filter(toast => toast.id !== id)`.  An absent key of the
caller's configuration object is `none`. -/

/-- The caller-supplied toast configuration: every field optional. -/
structure ToastConfig where
  variant : Option String
  title : Option String
  message : Option String
  duration : Option Int
  dismissible : Option Bool
deriving DecidableEq, Repr

/-- A stored toast record, after merging with `defaultConfig` and stamping
`id` and `createdAt`. -/
structure ToastRecord where
  variant : Option String
  title : Option String
  message : Option String
  duration : Int
  dismissible : Bool
  id : String
  createdAt : Int
deriving DecidableEq, Repr

/-- `{...defaultConfig, ...toast, id, createdAt: Date.now()}`: caller fields
override the defaults `duration: 5000`, `dismissible: true`; `id` and
`createdAt` are set last. -/
def mkToast (cfg : ToastConfig) (id : String) (now : Int) : ToastRecord :=
  { variant := cfg.variant, title := cfg.title, message := cfg.message,
    duration := cfg.duration.getD 5000,
    dismissible := cfg.dismissible.getD true,
    id := id, createdAt := now }

/-- `showToast`: prepend the merged record to the list and return the
generated id (the id generator is embedded as the parameter `id`). -/
def showToast (cfg : ToastConfig) (id : String) (now : Int)
    (prev : List ToastRecord) : String × List ToastRecord :=
  (id, mkToast cfg id now :: prev)

/-- `dismissToast(id)`: keep exactly the records whose id differs. -/
def dismissToast (id : String) (prev : List ToastRecord) : List ToastRecord :=
  prev.filter fun t => t.id != id

/-- Helper: filtering out an id that occurs nowhere in the list leaves the
list unchanged. -/
theorem dismissToast_absent_id (id : String) (s : List ToastRecord)
    (h : ∀ t ∈ s, t.id ≠ id) : dismissToast id s = s := by
  unfold dismissToast
  rw [List.filter_eq_self]
  intro t ht
  simpa using h t ht

/-- C10: `showToast` returns the generated id and prepends exactly one record
— defaults `duration = 5000` and `dismissible = true` merged under the
caller's fields — to the front of the list; `dismissToast id` removes exactly
the records with that id (every survivor has a different id, every record
with a different id survives); consequently, on a list `s` not containing the
fresh id, dismissing the id returned by `showToast` restores `s`, and
dismissing an id absent from `s` leaves `s` unchanged. -/
theorem C10_toast_queue_round_trip :
    ∀ (cfg : ToastConfig) (id : String) (now : Int) (s : List ToastRecord),
      showToast cfg id now s =
        (id,
         { variant := cfg.variant, title := cfg.title, message := cfg.message,
           duration := cfg.duration.getD 5000,
           dismissible := cfg.dismissible.getD true,
           id := id, createdAt := now } :: s) ∧
      (∀ t ∈ dismissToast id s, t.id ≠ id) ∧
      (∀ t ∈ s, t.id ≠ id → t ∈ dismissToast id s) ∧
      ((∀ t ∈ s, t.id ≠ id) →
        dismissToast id (showToast cfg id now s).2 = s ∧
        dismissToast id s = s) := by
  intro cfg id now s
  refine ⟨rfl, fun t ht => ?_, fun t ht hne => ?_, fun habs => ⟨?_, ?_⟩⟩
  · have := List.of_mem_filter ht
    simpa using this
  · exact List.mem_filter.mpr ⟨ht, by simpa using hne⟩
  · show dismissToast id (mkToast cfg id now :: s) = s
    unfold dismissToast
    rw [List.filter_cons_of_neg]
    · exact dismissToast_absent_id id s habs
    · simp [mkToast]
  · exact dismissToast_absent_id id s habs

/-- Witness for C10 at a concrete configuration and two-element list. -/
theorem C10_toast_queue_round_trip_witness :
    dismissToast "toast_9"
        (showToast
          { variant := some "success", title := none, message := some "ok",
            duration := none, dismissible := none }
          "toast_9" 1000
          [{ variant := none, title := none, message := some "m",
             duration := 8000, dismissible := false, id := "toast_1",
             createdAt := 5 }]).2 =
      [{ variant := none, title := none, message := some "m",
         duration := 8000, dismissible := false, id := "toast_1",
         createdAt := 5 }] :=
  ((C10_toast_queue_round_trip
      { variant := some "success", title := none, message := some "ok",
        duration := none, dismissible := none }
      "toast_9" 1000
      [{ variant := none, title := none, message := some "m",
         duration := 8000, dismissible := false, id := "toast_1",
         createdAt := 5 }]).2.2.2 (by decide)).1

/-! ## Pagination (src/components/Checkbox/Checkbox.jsx, combined source file)

`getPageNumbers` builds the visible page list with `'...'` markers:
`const maxVisible = 5`; `totalPages <= maxVisible` yields `1..totalPages`;
otherwise page `1` is always first, followed by a near-start, near-end or
middle window. -/

/-- An entry of the page list: a page number, or the `'...'` marker pushed
for elided ranges. -/
inductive PageEntry where
  | page (n : Int)
  | ellipsis
deriving DecidableEq, Repr

namespace Pagination

/-- `getPageNumbers` of the `Pagination` component (`maxVisible = 5`). -/
def getPageNumbers (currentPage totalPages : Int) : List PageEntry :=
  if totalPages ≤ 5 then
    (List.range totalPages.toNat).map fun i => .page ((i : Int) + 1)
  else
    [PageEntry.page 1] ++
      (if currentPage ≤ 3 then
        [.page 2, .page 3, .page 4, .ellipsis, .page totalPages]
      else if totalPages - 2 ≤ currentPage then
        [.ellipsis, .page (totalPages - 3), .page (totalPages - 2),
         .page (totalPages - 1), .page totalPages]
      else
        [.ellipsis, .page (currentPage - 1), .page currentPage,
         .page (currentPage + 1), .ellipsis, .page totalPages])

/-- The numeric entries of a page list, in order, with the `'...'` markers
dropped. -/
def numericEntries (l : List PageEntry) : List Int :=
  l.filterMap fun e =>
    match e with
    | .page n => some n
    | .ellipsis => none

end Pagination

/-- C9: for `1 ≤ currentPage ≤ totalPages`, the page list's numeric entries
are strictly increasing, lie within `[1, totalPages]`, and contain `1`,
`currentPage` and `totalPages`; the list (ellipsis markers included) has at
most 7 entries; and for `totalPages ≤ 5` it is exactly `[1, ..., totalPages]`
with no ellipsis. -/
theorem C9_pagination_windowing :
    ∀ (currentPage totalPages : Int),
      1 ≤ currentPage → currentPage ≤ totalPages →
      List.Chain' (· < ·)
          (Pagination.numericEntries
            (Pagination.getPageNumbers currentPage totalPages)) ∧
      (∀ x ∈ Pagination.numericEntries
            (Pagination.getPageNumbers currentPage totalPages),
        1 ≤ x ∧ x ≤ totalPages) ∧
      (1 : Int) ∈ Pagination.numericEntries
          (Pagination.getPageNumbers currentPage totalPages) ∧
      currentPage ∈ Pagination.numericEntries
          (Pagination.getPageNumbers currentPage totalPages) ∧
      totalPages ∈ Pagination.numericEntries
          (Pagination.getPageNumbers currentPage totalPages) ∧
      (Pagination.getPageNumbers currentPage totalPages).length ≤ 7 ∧
      (totalPages ≤ 5 →
        Pagination.getPageNumbers currentPage totalPages =
          (List.range totalPages.toNat).map
            (fun i => PageEntry.page ((i : Int) + 1)) ∧
        PageEntry.ellipsis ∉ Pagination.getPageNumbers currentPage totalPages) := by
  intro cp tp h1 h2
  by_cases h5 : tp ≤ 5
  · have htp1 : 1 ≤ tp := le_trans h1 h2
    interval_cases tp <;> interval_cases cp <;>
      exact ⟨by simp [Pagination.getPageNumbers, Pagination.numericEntries,
                      List.range_succ, List.chain'_cons],
             by decide, by decide, by decide, by decide, by decide,
             fun _ => ⟨by decide, by decide⟩⟩
  · have h6 : 6 ≤ tp := by omega
    by_cases h3 : cp ≤ 3
    · have hlist : Pagination.getPageNumbers cp tp =
          [.page 1, .page 2, .page 3, .page 4, .ellipsis, .page tp] := by
        simp [Pagination.getPageNumbers, h5, h3]
      have hnums :
          Pagination.numericEntries
            [PageEntry.page 1, .page 2, .page 3, .page 4, .ellipsis, .page tp] =
          [1, 2, 3, 4, tp] := rfl
      rw [hlist, hnums]
      refine ⟨?_, ?_, ?_, ?_, ?_, ?_, fun h => absurd h h5⟩
      · simp [List.chain'_cons]
        omega
      · intro x hx
        simp only [List.mem_cons, List.not_mem_nil, or_false] at hx
        rcases hx with rfl | rfl | rfl | rfl | rfl <;> omega
      · simp
      · simp only [List.mem_cons, List.not_mem_nil, or_false]
        omega
      · simp
      · simp
    · by_cases hend : tp - 2 ≤ cp
      · have hlist : Pagination.getPageNumbers cp tp =
            [.page 1, .ellipsis, .page (tp - 3), .page (tp - 2),
             .page (tp - 1), .page tp] := by
          simp [Pagination.getPageNumbers, h5, h3, hend]
        have hnums :
            Pagination.numericEntries
              [PageEntry.page 1, .ellipsis, .page (tp - 3), .page (tp - 2),
               .page (tp - 1), .page tp] =
            [1, tp - 3, tp - 2, tp - 1, tp] := rfl
        rw [hlist, hnums]
        refine ⟨?_, ?_, ?_, ?_, ?_, ?_, fun h => absurd h h5⟩
        · simp [List.chain'_cons]
          omega
        · intro x hx
          simp only [List.mem_cons, List.not_mem_nil, or_false] at hx
          rcases hx with rfl | rfl | rfl | rfl | rfl <;> omega
        · simp
        · simp only [List.mem_cons, List.not_mem_nil, or_false]
          omega
        · simp
        · simp
      · have hlist : Pagination.getPageNumbers cp tp =
            [.page 1, .ellipsis, .page (cp - 1), .page cp,
             .page (cp + 1), .ellipsis, .page tp] := by
          simp [Pagination.getPageNumbers, h5, h3, hend]
        have hnums :
            Pagination.numericEntries
              [PageEntry.page 1, .ellipsis, .page (cp - 1), .page cp,
               .page (cp + 1), .ellipsis, .page tp] =
            [1, cp - 1, cp, cp + 1, tp] := rfl
        rw [hlist, hnums]
        refine ⟨?_, ?_, ?_, ?_, ?_, ?_, fun h => absurd h h5⟩
        · simp [List.chain'_cons]
          omega
        · intro x hx
          simp only [List.mem_cons, List.not_mem_nil, or_false] at hx
          rcases hx with rfl | rfl | rfl | rfl | rfl <;> omega
        · simp
        · simp
        · simp
        · simp

/-- Witness for C9 at `currentPage = 4`, `totalPages = 10` (the middle
window): its numeric entries are strictly increasing. -/
theorem C9_pagination_windowing_witness :
    List.Chain' (· < ·)
      (Pagination.numericEntries (Pagination.getPageNumbers 4 10)) :=
  (C9_pagination_windowing 4 10 (by decide) (by decide)).1
